import Mathlib

/-!
# OCRLabeler review-session controller

A shallow embedding of `frontend/src/components/OCRLabeler.jsx`.

The component keeps eight React state variables and has six asynchronous
functions (`loadProgress`, `loadNextImage`, `performOCR`, `saveLabel`,
`skipImage`, `retryOCR`).  Every `async` function is cut at its `await`
points: the synchronous prefix is one function on the world, and each
continuation is another function that takes the collaborator's response.
A suspended function is a `Task` in the world's `pending` list; every
HTTP request, toast and console message is appended to the world's `log`.
-/

namespace OCRLabeler

/-! ## Data -/

/-- The body (`response.data`) of `GET /api/images/next`. A missing
`message` field is the empty string (both are falsy in JavaScript). -/
structure ImageData where
  message : String
  image_name : String
  image_url : String
  processed_images : Nat
  total_images : Nat
  deriving DecidableEq, Repr

/-- The body of `GET /api/images`. -/
structure ProgressData where
  processed_images : Nat
  total_images : Nat
  deriving DecidableEq, Repr

/-- The body of `POST /api/ocr/file`. -/
structure OCRData where
  success : Bool
  extracted_text : String
  deriving DecidableEq, Repr

/-- The body of `POST /api/save`. -/
structure SaveData where
  success : Bool
  deriving DecidableEq, Repr

/-- The `progress` state object `{ processed, total }`. -/
structure Progress where
  processed : Nat
  total : Nat
  deriving DecidableEq, Repr

/-- The React state of the component (the eight `useState` cells). -/
structure State where
  currentImage : Option ImageData
  extractedText : String
  editedText : String
  isProcessing : Bool
  isSaving : Bool
  progress : Progress
  error : String
  isLoadingImage : Bool
  deriving DecidableEq, Repr

/-- The initial values given to `useState`. -/
def State.initial : State :=
  { currentImage := none
    extractedText := ""
    editedText := ""
    isProcessing := false
    isSaving := false
    progress := { processed := 0, total := 0 }
    error := ""
    isLoadingImage := false }

/-- Everything the component does to the outside world. -/
inductive Event where
  /-- `axios.get(API_BASE_URL + "/api/images")`: ImageSource.progress. -/
  | getImages
  /-- `axios.get(API_BASE_URL + "/api/images/next")`: ImageSource.next. -/
  | getNext
  /-- `axios.post(API_BASE_URL + "/api/ocr/file", null, params)`: ExtractionService. -/
  | postOCR (image_name : String)
  /-- `axios.post(API_BASE_URL + "/api/save", formData)`: LabelStore. -/
  | postSave (image_name : String) (corrected_text : String)
  /-- `toast(...)`; `destructive` is `variant: "destructive"`. -/
  | toast (title : String) (description : String) (destructive : Bool)
  /-- `console.error(...)`. -/
  | consoleError (msg : String)
  deriving DecidableEq, Repr

/-- The event is a call to the LabelStore collaborator. -/
def Event.isLabelStore : Event → Bool
  | .postSave _ _ => true
  | _ => false

/-- The event is a call to the ImageSource collaborator. -/
def Event.isImageSource : Event → Bool
  | .getImages => true
  | .getNext => true
  | _ => false

/-- The event is an ImageSource.next request. -/
def Event.isNext : Event → Bool
  | .getNext => true
  | _ => false

/-- The event is a call to the ExtractionService collaborator. -/
def Event.isExtraction : Event → Bool
  | .postOCR _ => true
  | _ => false

/-- Who awaits a `loadNextImage()` call. -/
inductive Caller where
  /-- The mount effect: the promise is dropped. -/
  | effect
  /-- The call `await loadNextImage()` in `skipImage`, its last statement. -/
  | skip
  /-- The call `await loadNextImage()` in `saveLabel`; its `finally` follows. -/
  | save
  deriving DecidableEq, Repr

/-- Who awaits a `performOCR(...)` call. -/
inductive OCRCaller where
  /-- The call `await performOCR(...)` in `retryOCR`, its last statement. -/
  | retry
  /-- The call `await performOCR(...)` in `loadNextImage`; its `finally` follows. -/
  | load (c : Caller)
  deriving DecidableEq, Repr

/-- A suspended asynchronous function. -/
inductive Task where
  /-- The function `loadProgress` at `await axios.get`. -/
  | awaitProgress
  /-- The function `loadNextImage` at `await axios.get`. -/
  | awaitNext (c : Caller)
  /-- The function `performOCR(imageName)` at `await axios.post`. -/
  | awaitOCR (imageName : String) (c : OCRCaller)
  /-- The function `saveLabel` at `await axios.post`; `imageName` is
  `currentImage.image_name` of the render the handler closed over. -/
  | awaitSave (imageName : String)
  /-- The function `loadNextImage` at `await performOCR(...)`, whose promise has settled. -/
  | resumeLoad (c : Caller)
  /-- The function `saveLabel` at `await loadNextImage()`, whose promise has settled. -/
  | resumeSave
  deriving DecidableEq, Repr

/-- The component together with its suspended functions and its effect log. -/
structure World where
  st : State
  pending : List Task
  log : List Event
  deriving DecidableEq, Repr

/-- The component before the mount effect has run. -/
def World.initial : World :=
  { st := State.initial, pending := [], log := [] }

/-- A state with nothing suspended and nothing logged. -/
def World.ofState (s : State) : World :=
  { st := s, pending := [], log := [] }

/-! ## Primitive updates -/

@[simp]
def emit (e : Event) (w : World) : World :=
  { w with log := w.log ++ [e] }

@[simp]
def suspend (t : Task) (w : World) : World :=
  { w with pending := w.pending ++ [t] }

@[simp]
def setCurrentImage (v : Option ImageData) (w : World) : World :=
  { w with st := { w.st with currentImage := v } }

@[simp]
def setExtractedText (v : String) (w : World) : World :=
  { w with st := { w.st with extractedText := v } }

@[simp]
def setEditedText (v : String) (w : World) : World :=
  { w with st := { w.st with editedText := v } }

@[simp]
def setIsProcessing (v : Bool) (w : World) : World :=
  { w with st := { w.st with isProcessing := v } }

@[simp]
def setIsSaving (v : Bool) (w : World) : World :=
  { w with st := { w.st with isSaving := v } }

@[simp]
def setProgress (v : Progress) (w : World) : World :=
  { w with st := { w.st with progress := v } }

@[simp]
def setError (v : String) (w : World) : World :=
  { w with st := { w.st with error := v } }

@[simp]
def setIsLoadingImage (v : Bool) (w : World) : World :=
  { w with st := { w.st with isLoadingImage := v } }

/-! ## `String.prototype.trim` -/

/-- ECMAScript WhiteSpace and LineTerminator code points. -/
def isJsWhiteSpace (c : Char) : Bool :=
  c.toNat ∈ [0x9, 0xA, 0xB, 0xC, 0xD, 0x20, 0xA0, 0x1680, 0x2028, 0x2029,
             0x202F, 0x205F, 0x3000, 0xFEFF]
    || (0x2000 ≤ c.toNat && c.toNat ≤ 0x200A)

/-- The JavaScript `s.trim()`. -/
def jsTrim (s : String) : String :=
  ⟨((s.data.dropWhile isJsWhiteSpace).reverse.dropWhile isJsWhiteSpace).reverse⟩

/-! ## The six functions, cut at their `await`s -/

/-- The promise of `performOCR` settles: the awaiting caller is scheduled. -/
def performOCR_return (c : OCRCaller) (w : World) : World :=
  match c with
  | .retry => w
  | .load c' => suspend (.resumeLoad c') w

/-- The function `performOCR(imageName)` up to `await axios.post`. -/
def performOCR (imageName : String) (c : OCRCaller) (w : World) : World :=
  if imageName = "" then
    performOCR_return c w
  else
    w |> setIsProcessing true
      |> setError ""
      |> emit (.postOCR imageName)
      |> suspend (.awaitOCR imageName c)

/-- The function `performOCR` from the settled `axios.post` to its end;
`none` is a rejected request. -/
def performOCR_resume (r : Option OCRData) (c : OCRCaller) (w : World) : World :=
  let w1 :=
    match r with
    | some d =>
      if d.success then
        let w' := w |> setExtractedText d.extracted_text
                    |> setEditedText d.extracted_text
        if d.extracted_text = "" then
          setError "No text detected in this image." w'
        else
          w'
      else
        setError "OCR processing failed. Please try again." w
    | none =>
      w |> emit (.consoleError "Error performing OCR:")
        |> setError "Failed to extract text. Please try again."
        |> emit (.toast "OCR Error" "Failed to extract text from image" true)
  w1 |> setIsProcessing false |> performOCR_return c

/-- The promise of `loadNextImage` settles: the awaiting caller is scheduled. -/
def loadNextImage_return (c : Caller) (w : World) : World :=
  match c with
  | .save => suspend .resumeSave w
  | _ => w

/-- The `finally` block of `loadNextImage`. -/
def loadNextImage_finally (c : Caller) (w : World) : World :=
  w |> setIsLoadingImage false |> loadNextImage_return c

/-- The function `loadNextImage` up to `await axios.get`. -/
def loadNextImage (c : Caller) (w : World) : World :=
  w |> setIsLoadingImage true
    |> setError ""
    |> emit .getNext
    |> suspend (.awaitNext c)

/-- The function `loadNextImage` from the settled `axios.get` to
`await performOCR(...)` or to its end; `none` is a rejected request. -/
def loadNextImage_resume (r : Option ImageData) (c : Caller) (w : World) : World :=
  match r with
  | some d =>
    if d.message ≠ "" then
      w |> setCurrentImage none
        |> setExtractedText ""
        |> setEditedText ""
        |> setError "All images have been processed! 🎉"
        |> loadNextImage_finally c
    else
      w |> setCurrentImage (some d)
        |> setProgress { processed := d.processed_images, total := d.total_images }
        |> performOCR d.image_name (.load c)
  | none =>
    w |> emit (.consoleError "Error loading next image:")
      |> setError "Failed to load next image. Please try again."
      |> emit (.toast "Error" "Failed to load next image" true)
      |> loadNextImage_finally c

/-- The function `loadProgress` up to `await axios.get`. -/
def loadProgress (w : World) : World :=
  w |> emit .getImages |> suspend .awaitProgress

/-- The function `loadProgress` from the settled `axios.get` to its end. -/
def loadProgress_resume (r : Option ProgressData) (w : World) : World :=
  match r with
  | some d => setProgress { processed := d.processed_images, total := d.total_images } w
  | none => emit (.consoleError "Error loading progress:") w

/-- The `finally` block of `saveLabel`. -/
def saveLabel_finally (w : World) : World :=
  setIsSaving false w

/-- The function `saveLabel` up to `await axios.post`. -/
def saveLabel (w : World) : World :=
  match w.st.currentImage with
  | none =>
    emit (.toast "Error" "Please enter some text before saving" true) w
  | some img =>
    if jsTrim w.st.editedText = "" then
      emit (.toast "Error" "Please enter some text before saving" true) w
    else
      w |> setIsSaving true
        |> emit (.postSave img.image_name (jsTrim w.st.editedText))
        |> suspend (.awaitSave img.image_name)

/-- The function `saveLabel` from the settled `axios.post` to
`await loadNextImage()` or to its end; `none` is a rejected request. -/
def saveLabel_resume (r : Option SaveData) (imageName : String) (w : World) : World :=
  match r with
  | some d =>
    if d.success then
      w |> emit (.toast "Success" ("Label saved for " ++ imageName) false)
        |> loadNextImage .save
    else
      w |> setError "Failed to save label. Please try again."
        |> saveLabel_finally
  | none =>
    w |> emit (.consoleError "Error saving label:")
      |> setError "Failed to save label. Please try again."
      |> emit (.toast "Save Error" "Failed to save label" true)
      |> saveLabel_finally

/-- The function `skipImage`; `currentImage?.image_name` of a null image
prints as `undefined`. -/
def skipImage (w : World) : World :=
  let name := match w.st.currentImage with
    | some img => img.image_name
    | none => "undefined"
  w |> emit (.toast "Skipped" ("Skipped " ++ name) false)
    |> loadNextImage .skip

/-- The function `retryOCR`. -/
def retryOCR (w : World) : World :=
  match w.st.currentImage with
  | some img => performOCR img.image_name .retry w
  | none => w

/-- The mount effect: `loadNextImage(); loadProgress();`. -/
def mount (w : World) : World :=
  w |> loadNextImage .effect |> loadProgress

/-! ## Scheduling -/

/-- What a suspended function is resumed with. -/
inductive Response where
  | progress (r : Option ProgressData)
  | next (r : Option ImageData)
  | ocr (r : Option OCRData)
  | save (r : Option SaveData)
  /-- An awaited promise of the component itself has settled. -/
  | tick
  deriving DecidableEq, Repr

/-- Run the continuation of task `t` on response `r`; `none` when the
response is not of the kind the task waits for. -/
def resume (t : Task) (r : Response) (w : World) : Option World :=
  match t, r with
  | .awaitProgress, .progress d => some (loadProgress_resume d w)
  | .awaitNext c, .next d => some (loadNextImage_resume d c w)
  | .awaitOCR _ c, .ocr d => some (performOCR_resume d c w)
  | .awaitSave imageName, .save d => some (saveLabel_resume d imageName w)
  | .resumeLoad c, .tick => some (loadNextImage_finally c w)
  | .resumeSave, .tick => some (saveLabel_finally w)
  | _, _ => none

/-- The environment settles the `i`-th suspended function with `r`.
Nothing happens when there is no such task or the response does not fit. -/
def settle (i : Nat) (r : Response) (w : World) : World :=
  match w.pending[i]? with
  | some t =>
    match resume t r { w with pending := w.pending.eraseIdx i } with
    | some w' => w'
    | none => w
  | none => w

/-- A direct call of one of the component's functions or state setters. -/
inductive Call where
  | mount
  | loadProgress
  | loadNextImage
  | performOCR (imageName : String)
  | saveLabel
  | skipImage
  | retryOCR
  | setEditedText (text : String)
  | setError (msg : String)
  deriving DecidableEq, Repr

def call (c : Call) (w : World) : World :=
  match c with
  | .mount => mount w
  | .loadProgress => loadProgress w
  | .loadNextImage => loadNextImage .effect w
  | .performOCR imageName => performOCR imageName .retry w
  | .saveLabel => saveLabel w
  | .skipImage => skipImage w
  | .retryOCR => retryOCR w
  | .setEditedText text => setEditedText text w
  | .setError msg => setError msg w

/-- One step of the component: a function is called or a suspended
function is resumed. -/
inductive Action where
  | call (c : Call)
  | settle (i : Nat) (r : Response)
  deriving DecidableEq, Repr

def step (w : World) (a : Action) : World :=
  match a with
  | .call c => call c w
  | .settle i r => settle i r w

/-- Any sequence and interleaving of calls and resumptions. -/
def run (w : World) (as : List Action) : World :=
  as.foldl step w

/-! ## Running one operation to its end -/

/-- One response per collaborator endpoint, for runs in which every
endpoint is asked at most once. -/
structure Oracle where
  progress : Option ProgressData
  next : Option ImageData
  ocr : Option OCRData
  save : Option SaveData
  deriving DecidableEq, Repr

def Oracle.answer (o : Oracle) : Task → Response
  | .awaitProgress => .progress o.progress
  | .awaitNext _ => .next o.next
  | .awaitOCR _ _ => .ocr o.ocr
  | .awaitSave _ => .save o.save
  | .resumeLoad _ => .tick
  | .resumeSave => .tick

/-- Resume the oldest suspended function until none is left, at most
`fuel` times. -/
def drain (fuel : Nat) (o : Oracle) (w : World) : World :=
  match fuel with
  | 0 => w
  | fuel + 1 =>
    match w.pending with
    | [] => w
    | t :: _ => drain fuel o (settle 0 (o.answer t) w)

/-- The longest chain is `saveLabel`, `loadNextImage`, `performOCR` and
the two returns: five resumptions. -/
def completionFuel : Nat := 5

/-- The call `saveLabel()` on state `s`, run to its end. -/
def saveLabelRun (o : Oracle) (s : State) : World :=
  drain completionFuel o (saveLabel (World.ofState s))

/-- The call `performOCR(imageName)` on state `s`, awaited by `c`, run to its end. -/
def performOCRRun (o : Oracle) (imageName : String) (c : OCRCaller) (s : State) : World :=
  drain completionFuel o (performOCR imageName c (World.ofState s))

/-- The call `loadNextImage()` on state `s`, run to its end. -/
def loadNextImageRun (o : Oracle) (s : State) : World :=
  drain completionFuel o (loadNextImage .effect (World.ofState s))

/-- The call `skipImage()` on state `s`, run to its end. -/
def skipImageRun (o : Oracle) (s : State) : World :=
  drain completionFuel o (skipImage (World.ofState s))

/-! ## The rendered controls -/

/-- The Skip button is rendered (`currentImage && ...`) and not `disabled`. -/
def skipEnabled (s : State) : Bool :=
  s.currentImage.isSome && !(s.isProcessing || s.isSaving || s.isLoadingImage)

/-- The Save button is rendered and not `disabled`. -/
def saveEnabled (s : State) : Bool :=
  s.currentImage.isSome &&
    !(s.isProcessing || s.isSaving || s.isLoadingImage || jsTrim s.editedText = "")

/-- The Retry OCR button is rendered and not `disabled`. -/
def retryEnabled (s : State) : Bool :=
  s.currentImage.isSome && !(s.isProcessing || s.isLoadingImage)

/-- The textarea is rendered and not `disabled`. -/
def textareaEnabled (s : State) : Bool :=
  s.currentImage.isSome && !s.isProcessing

/-- The image element is rendered. -/
def imageShown (s : State) : Bool :=
  s.currentImage.isSome && !s.isLoadingImage

/-- What the reviewer can do, and what the environment can do. -/
inductive UIAction where
  | clickSkip
  | clickSave
  | clickRetry
  | typeText (text : String)
  | imageError
  | settle (i : Nat) (r : Response)
  deriving DecidableEq, Repr

def clickSkip (w : World) : World :=
  if skipEnabled w.st then skipImage w else w

def clickSave (w : World) : World :=
  if saveEnabled w.st then saveLabel w else w

def clickRetry (w : World) : World :=
  if retryEnabled w.st then retryOCR w else w

def typeText (text : String) (w : World) : World :=
  if textareaEnabled w.st then setEditedText text w else w

def imageError (w : World) : World :=
  if imageShown w.st then setError "Failed to load image" w else w

def uiStep (w : World) (a : UIAction) : World :=
  match a with
  | .clickSkip => clickSkip w
  | .clickSave => clickSave w
  | .clickRetry => clickRetry w
  | .typeText text => typeText text w
  | .imageError => imageError w
  | .settle i r => settle i r w

/-- A session driven through the rendered controls, from the mounted component. -/
def uiRun (as : List UIAction) : World :=
  as.foldl uiStep (mount World.initial)

/-! ## Well-formed ImageSource responses -/

/-- An ImageSource response carries `processed_images <= total_images`;
other responses are not constrained. -/
def Response.progressOK : Response → Bool
  | .progress (some d) => decide (d.processed_images ≤ d.total_images)
  | .next (some d) => decide (d.processed_images ≤ d.total_images)
  | _ => true

def Action.progressOK : Action → Bool
  | .call _ => true
  | .settle _ r => r.progressOK

/-- The progress invariant `processed <= total`. -/
def progressBounded (w : World) : Prop :=
  w.st.progress.processed ≤ w.st.progress.total

/-! ## Sample sessions -/

def imgA : ImageData :=
  { message := "", image_name := "img001.png", image_url := "/images/img001.png",
    processed_images := 0, total_images := 2 }

def imgB : ImageData :=
  { message := "", image_name := "img002.png", image_url := "/images/img002.png",
    processed_images := 1, total_images := 2 }

/-- The exhaustion response of `GET /api/images/next`. -/
def allDone : ImageData :=
  { message := "All images processed", image_name := "", image_url := "",
    processed_images := 2, total_images := 2 }

/-- Item `imgA` after a successful extraction and an edit by the reviewer. -/
def reviewingA : State :=
  { State.initial with
    currentImage := some imgA
    extractedText := "Hello Wrold"
    editedText := "Hello World"
    progress := { processed := 0, total := 2 } }

/-- Item `imgA` with a whitespace-only text. -/
def blankA : State :=
  { State.initial with
    currentImage := some imgA
    editedText := "   "
    progress := { processed := 0, total := 2 } }

/-- The state `loadNextImage` leaves behind on the exhaustion response while
reviewing `imgA` (the exhaustion branch does not touch `progress`). -/
def exhaustedState : State :=
  { State.initial with
    error := "All images have been processed! 🎉"
    progress := { processed := 0, total := 2 } }

/-- A state in which a `loadNextImage` is in flight. -/
def loadingState : State :=
  { State.initial with isLoadingImage := true }

/-- Every collaborator answers successfully; the next image is `imgB`. -/
def happyOracle : Oracle :=
  { progress := some { processed_images := 1, total_images := 2 }
    next := some imgB
    ocr := some { success := true, extracted_text := "Invoice #42" }
    save := some { success := true } }

/-- The next image is `imgB` and its extraction reports `success: false`. -/
def ocrFailsOracle : Oracle :=
  { happyOracle with ocr := some { success := false, extracted_text := "" } }

/-- The LabelStore reports `success: false`. -/
def saveFailsOracle : Oracle :=
  { happyOracle with save := some { success := false } }

/-- The ImageSource reports exhaustion. -/
def exhaustedOracle : Oracle :=
  { happyOracle with next := some allDone }

/-- The mount effect loads `imgA`; before its extraction answers,
`skipImage()` is called, the ImageSource yields `imgB`, and the extraction
of `imgB` answers and `loadNextImage` returns. -/
def skipDuringExtraction : List Action :=
  [ .call .mount,
    .settle 0 (.next (some imgA)),
    .call .skipImage,
    .settle 2 (.next (some imgB)),
    .settle 2 (.ocr (some { success := true, extracted_text := "Invoice #42" })),
    .settle 2 .tick ]

/-- Through the rendered controls only: `imgA` is loaded and extracted, the
reviewer clicks Save and then, the save still in flight, Retry OCR; the save
succeeds, the ImageSource yields `imgB`, the extraction of `imgB` answers,
`loadNextImage` and `saveLabel` return, and the reviewer corrects the text. -/
def retryDuringSave : List UIAction :=
  [ .settle 0 (.next (some imgA)),
    .settle 1 (.ocr (some { success := true, extracted_text := "Hello World" })),
    .settle 1 .tick,
    .clickSave,
    .clickRetry,
    .settle 1 (.save (some { success := true })),
    .settle 2 (.next (some imgB)),
    .settle 2 (.ocr (some { success := true, extracted_text := "Invoice #4Z" })),
    .settle 2 .tick,
    .settle 2 .tick,
    .typeText "Invoice #42" ]

/-- The late answer to the extraction request for `imgA`. -/
def lateAnswerForA : Response :=
  .ocr (some { success := true, extracted_text := "text of img001" })

/-! ## Draining, one resumption at a time -/

theorem drain_nil (n : Nat) (o : Oracle) (w : World) (h : w.pending = []) :
    drain n o w = w := by
  cases n <;> simp [drain, h]

theorem drain_cons (n : Nat) (o : Oracle) (st : State) (t : Task) (ts : List Task)
    (log : List Event) :
    drain (n + 1) o ⟨st, t :: ts, log⟩ =
      drain n o ((resume t (o.answer t) ⟨st, ts, log⟩).getD ⟨st, t :: ts, log⟩) := by
  simp only [drain, settle, List.getElem?_cons_zero, List.eraseIdx_cons_zero]
  cases resume t (o.answer t) ⟨st, ts, log⟩ <;> rfl

/-- The synchronous part of an accepted `saveLabel()`. -/
theorem saveLabel_accepted (s : State) (img : ImageData)
    (hc : s.currentImage = some img) (ht : jsTrim s.editedText ≠ "") :
    saveLabel (World.ofState s) =
      { st := { s with isSaving := true }, pending := [.awaitSave img.image_name],
        log := [.postSave img.image_name (jsTrim s.editedText)] } := by
  simp [saveLabel, World.ofState, hc, ht]

theorem clickSkip_of_enabled (w : World) (h : skipEnabled w.st = true) :
    clickSkip w = skipImage w := by
  simp [clickSkip, h]

/-- Right after `skipImage()` the Skip button is disabled. -/
theorem clickSkip_after_skipImage (w : World) : clickSkip (skipImage w) = skipImage w := by
  have h : skipEnabled (skipImage w).st = false := by
    simp [skipImage, loadNextImage, skipEnabled]
  simp [clickSkip, h]

/-- The synchronous part of a rejected `saveLabel()`. -/
theorem saveLabel_rejected (w : World)
    (h : w.st.currentImage = none ∨ jsTrim w.st.editedText = "") :
    saveLabel w =
      { w with log := w.log ++ [.toast "Error" "Please enter some text before saving" true] } := by
  rcases h with h | h
  · simp [saveLabel, h]
  · cases hc : w.st.currentImage <;> simp [saveLabel, h, hc]

/-! ## Saving -/

/-- C1: in every state with no current image, or whose `editedText.trim()` is
empty, `saveLabel()` run to its end issues no LabelStore call and no
ImageSource call, and nothing stays suspended. -/
theorem saveLabel_blank_issues_no_call (o : Oracle) (s : State)
    (h : s.currentImage = none ∨ jsTrim s.editedText = "") :
    (saveLabelRun o s).pending = [] ∧
      ∀ e ∈ (saveLabelRun o s).log, e.isLabelStore = false ∧ e.isImageSource = false := by
  have hr := saveLabel_rejected (World.ofState s) h
  rw [saveLabelRun, hr]
  simp [World.ofState, drain_nil, Event.isLabelStore, Event.isImageSource]

theorem saveLabel_blank_issues_no_call_witness :
    (saveLabelRun happyOracle blankA).pending = [] ∧
      ∀ e ∈ (saveLabelRun happyOracle blankA).log,
        e.isLabelStore = false ∧ e.isImageSource = false :=
  saveLabel_blank_issues_no_call happyOracle blankA (Or.inr (by decide))

/-- C2: with a current image and a non-blank trimmed text, `saveLabel()` up to
its `await` issues exactly the LabelStore call `(image_name, editedText.trim())`
and nothing else; over the whole run that is the only LabelStore call; and
when the call answers success the run holds exactly one ImageSource.next
request, which is logged after the LabelStore call. -/
theorem saveLabel_one_store_then_one_next (o : Oracle) (s : State) (img : ImageData)
    (hc : s.currentImage = some img) (ht : jsTrim s.editedText ≠ "") :
    saveLabel (World.ofState s) =
        { st := { s with isSaving := true }, pending := [.awaitSave img.image_name],
          log := [.postSave img.image_name (jsTrim s.editedText)] }
      ∧ (saveLabelRun o s).log.filter Event.isLabelStore
          = [.postSave img.image_name (jsTrim s.editedText)]
      ∧ (saveLabelRun o s).pending = []
      ∧ (o.save = some ⟨true⟩ → (saveLabelRun o s).log.filter Event.isNext = [.getNext])
      ∧ ∃ rest, (saveLabelRun o s).log
          = .postSave img.image_name (jsTrim s.editedText) :: rest := by
  refine ⟨saveLabel_accepted s img hc ht, ?_⟩
  rw [saveLabelRun, saveLabel_accepted s img hc ht, completionFuel]
  rcases o with ⟨op, onx, oo, os⟩
  rcases os with _ | sv
  · simp [drain_cons, drain_nil, resume, Oracle.answer, saveLabel_resume, saveLabel_finally,
      Event.isLabelStore]
  cases hs : sv.success
  · simp [drain_cons, drain_nil, resume, Oracle.answer, saveLabel_resume, saveLabel_finally,
      Event.isLabelStore, hs]
    intro h; rw [h] at hs; cases hs
  rcases onx with _ | d
  · simp [drain_cons, drain_nil, resume, Oracle.answer, saveLabel_resume, saveLabel_finally,
      loadNextImage, loadNextImage_resume, loadNextImage_finally, loadNextImage_return,
      Event.isLabelStore, Event.isNext, hs]
  by_cases hm : d.message = ""
  swap
  · simp [drain_cons, drain_nil, resume, Oracle.answer, saveLabel_resume, saveLabel_finally,
      loadNextImage, loadNextImage_resume, loadNextImage_finally, loadNextImage_return,
      Event.isLabelStore, Event.isNext, hs, hm]
  by_cases hn : d.image_name = ""
  · simp [drain_cons, drain_nil, resume, Oracle.answer, saveLabel_resume, saveLabel_finally,
      loadNextImage, loadNextImage_resume, loadNextImage_finally, loadNextImage_return,
      performOCR, performOCR_return, Event.isLabelStore, Event.isNext, hs, hm, hn]
  rcases oo with _ | r
  · simp [drain_cons, drain_nil, resume, Oracle.answer, saveLabel_resume, saveLabel_finally,
      loadNextImage, loadNextImage_resume, loadNextImage_finally, loadNextImage_return,
      performOCR, performOCR_return, performOCR_resume, Event.isLabelStore, Event.isNext,
      hs, hm, hn]
  cases hr : r.success <;> by_cases hx : r.extracted_text = "" <;>
    simp [drain_cons, drain_nil, resume, Oracle.answer, saveLabel_resume, saveLabel_finally,
      loadNextImage, loadNextImage_resume, loadNextImage_finally, loadNextImage_return,
      performOCR, performOCR_return, performOCR_resume, Event.isLabelStore, Event.isNext,
      hs, hm, hn, hr, hx]

theorem saveLabel_one_store_then_one_next_witness :
    (saveLabelRun happyOracle reviewingA).log.filter Event.isLabelStore
        = [.postSave "img001.png" "Hello World"]
      ∧ (saveLabelRun happyOracle reviewingA).log.filter Event.isNext = [.getNext] :=
  have h := saveLabel_one_store_then_one_next happyOracle reviewingA imgA rfl (by decide)
  ⟨h.2.1, h.2.2.2.1 rfl⟩

/-- C3: with a current image and a non-blank trimmed text, when the LabelStore
call fails (it answers `success: false` or the request is rejected),
`saveLabel()` run to its end leaves a non-empty `error`, issues no
ImageSource.next request, keeps `currentImage` and `editedText`, and ends with
`isSaving = false`. -/
theorem saveLabel_failure_recoverable (o : Oracle) (s : State) (img : ImageData)
    (hc : s.currentImage = some img) (ht : jsTrim s.editedText ≠ "")
    (hf : o.save = none ∨ o.save = some ⟨false⟩) :
    (saveLabelRun o s).st.error ≠ ""
      ∧ (saveLabelRun o s).log.filter Event.isNext = []
      ∧ (saveLabelRun o s).st.currentImage = s.currentImage
      ∧ (saveLabelRun o s).st.editedText = s.editedText
      ∧ (saveLabelRun o s).st.isSaving = false
      ∧ (saveLabelRun o s).pending = [] := by
  rw [saveLabelRun, saveLabel_accepted s img hc ht, completionFuel]
  rcases hf with hf | hf <;>
    simp [drain_cons, drain_nil, resume, Oracle.answer, saveLabel_resume, saveLabel_finally,
      Event.isNext, hf]

theorem saveLabel_failure_recoverable_witness :
    (saveLabelRun saveFailsOracle reviewingA).st.error ≠ ""
      ∧ (saveLabelRun saveFailsOracle reviewingA).log.filter Event.isNext = []
      ∧ (saveLabelRun saveFailsOracle reviewingA).st.currentImage = reviewingA.currentImage
      ∧ (saveLabelRun saveFailsOracle reviewingA).st.editedText = reviewingA.editedText
      ∧ (saveLabelRun saveFailsOracle reviewingA).st.isSaving = false
      ∧ (saveLabelRun saveFailsOracle reviewingA).pending = [] :=
  saveLabel_failure_recoverable saveFailsOracle reviewingA imgA rfl (by decide) (Or.inr rfl)

/-- C4, as the spec states it, fails: `saveLabel()` on a whitespace-only text
leaves `error` empty. -/
theorem saveLabel_blank_error_not_set :
    blankA.currentImage = some imgA ∧ jsTrim blankA.editedText = "" ∧
      (saveLabelRun happyOracle blankA).st.error = "" := by
  decide

/-- C4, amended: with a current image whose text is blank after trimming,
`saveLabel()` is rejected with the destructive toast "Please enter some text
before saving"; the state, `error` included, is unchanged and nothing is
requested. -/
theorem saveLabel_blank_rejected_with_toast (o : Oracle) (s : State) (img : ImageData)
    (_hc : s.currentImage = some img) (ht : jsTrim s.editedText = "") :
    saveLabelRun o s =
      { st := s, pending := [],
        log := [.toast "Error" "Please enter some text before saving" true] } := by
  have hr := saveLabel_rejected (World.ofState s) (Or.inr ht)
  rw [saveLabelRun, hr]
  simp [World.ofState, drain_nil]

theorem saveLabel_blank_rejected_with_toast_witness :
    saveLabelRun happyOracle blankA =
      { st := blankA, pending := [],
        log := [.toast "Error" "Please enter some text before saving" true] } :=
  saveLabel_blank_rejected_with_toast happyOracle blankA imgA rfl (by decide)

/-! ## Extraction -/

/-- C5: when `performOCR(imageName)` completes.  The service is asked exactly
when the image name is non-empty, and then: on success with non-empty text
`t`, `extractedText = editedText = t`; on success with empty text, `error` is
the "no text detected" notice; on failure (`success: false` or a rejected
request) `error` is set and `editedText` is what it was before the call; and in
every one of these cases `isProcessing` is false afterwards.  With an empty
image name nothing is requested and the state is left as it was, so
`isProcessing` is false afterwards whenever no extraction was running before.
Nothing stays suspended. -/
theorem performOCR_outcomes (o : Oracle) (imageName : String) (c : OCRCaller) (s : State) :
    (imageName ≠ "" → ∀ t, o.ocr = some ⟨true, t⟩ → t ≠ "" →
        (performOCRRun o imageName c s).st.extractedText = t ∧
        (performOCRRun o imageName c s).st.editedText = t)
      ∧ (imageName ≠ "" → o.ocr = some ⟨true, ""⟩ →
        (performOCRRun o imageName c s).st.error = "No text detected in this image.")
      ∧ (imageName ≠ "" → (o.ocr = none ∨ ∃ t, o.ocr = some ⟨false, t⟩) →
        (performOCRRun o imageName c s).st.error ≠ "" ∧
        (performOCRRun o imageName c s).st.editedText = s.editedText)
      ∧ (imageName ≠ "" ∨ s.isProcessing = false →
        (performOCRRun o imageName c s).st.isProcessing = false)
      ∧ (performOCRRun o imageName c s).pending = []
      ∧ (performOCRRun o imageName c s).log.filter Event.isExtraction
          = (if imageName = "" then [] else [.postOCR imageName]) := by
  by_cases hn : imageName = ""
  · subst hn
    rw [performOCRRun, completionFuel]
    rcases c with _ | (_ | _ | _) <;>
      simp [performOCR, performOCR_return, World.ofState, drain_cons, drain_nil, resume,
        Oracle.answer, loadNextImage_finally, loadNextImage_return, saveLabel_finally]
  have h0 : performOCR imageName c (World.ofState s) =
      { st := { s with isProcessing := true, error := "" },
        pending := [.awaitOCR imageName c], log := [.postOCR imageName] } := by
    simp [performOCR, World.ofState, hn]
  rw [performOCRRun, h0, completionFuel]
  rcases o with ⟨op, onx, oo, os⟩
  rcases oo with _ | r
  · rcases c with _ | (_ | _ | _) <;>
      simp [drain_cons, drain_nil, resume, Oracle.answer, performOCR_resume, performOCR_return,
        loadNextImage_finally, loadNextImage_return, saveLabel_finally, Event.isExtraction, hn]
  rcases r with ⟨ok, t⟩
  cases ok <;> by_cases hx : t = "" <;> rcases c with _ | (_ | _ | _) <;>
    simp [drain_cons, drain_nil, resume, Oracle.answer, performOCR_resume, performOCR_return,
      loadNextImage_finally, loadNextImage_return, saveLabel_finally, Event.isExtraction, hx, hn]

theorem performOCR_outcomes_witness :
    (performOCRRun happyOracle "img001.png" .retry reviewingA).st.extractedText = "Invoice #42"
      ∧ (performOCRRun happyOracle "img001.png" .retry reviewingA).st.editedText = "Invoice #42"
      ∧ (performOCRRun ocrFailsOracle "img001.png" .retry reviewingA).st.editedText
          = "Hello World"
      ∧ (performOCRRun happyOracle "img001.png" .retry reviewingA).st.isProcessing = false :=
  have h := performOCR_outcomes happyOracle "img001.png" .retry reviewingA
  have hf := performOCR_outcomes ocrFailsOracle "img001.png" .retry reviewingA
  ⟨(h.1 (by decide) "Invoice #42" rfl (by decide)).1,
   (h.1 (by decide) "Invoice #42" rfl (by decide)).2,
   (hf.2.2.1 (by decide) (Or.inr ⟨"", rfl⟩)).2,
   h.2.2.2.1 (Or.inl (by decide))⟩

/-! ## Moving to the next image -/

/-- C6 at its failing input: the reviewer saves `imgA` with the text
"Hello World", the ImageSource yields `imgB`, and the first extraction for
`imgB` reports `success: false`.  The current image is then `imgB`, yet
`editedText` and `extractedText` still hold the texts of `imgA`. -/
theorem loadNextImage_keeps_previous_text :
    (loadNextImageRun ocrFailsOracle reviewingA).st.currentImage = some imgB
      ∧ (loadNextImageRun ocrFailsOracle reviewingA).st.editedText = "Hello World"
      ∧ (loadNextImageRun ocrFailsOracle reviewingA).st.extractedText = "Hello Wrold"
      ∧ (loadNextImageRun ocrFailsOracle reviewingA).pending = []
      ∧ saveEnabled (loadNextImageRun ocrFailsOracle reviewingA).st = true := by
  decide

/-- C7, as the spec states it, fails: in the state the exhaustion response
leaves behind, `skipImage()` requests the next image and changes the state. -/
theorem skipImage_exhausted_requests_next :
    (loadNextImageRun exhaustedOracle reviewingA).st = exhaustedState
      ∧ (skipImage (World.ofState exhaustedState)).log
          = [.toast "Skipped" "Skipped undefined" false, .getNext]
      ∧ (skipImage (World.ofState exhaustedState)).st ≠ exhaustedState
      ∧ Event.getNext ∈ (skipImageRun exhaustedOracle exhaustedState).log := by
  decide

/-- C7, amended: on the exhaustion response `loadNextImage` clears
`currentImage` (and both texts); and from every world without a current image,
`saveLabel()` only shows a toast, `retryOCR()` does nothing, and a click on
Skip does nothing because the button is not rendered: none of them issues a
collaborator call or changes the state.  The function `skipImage()` itself has
no guard and requests the next image. -/
theorem exhausted_controls_rejected (o : Oracle) (s : State) (d : ImageData)
    (ho : o.next = some d) (hd : d.message ≠ "") :
    (loadNextImageRun o s).st.currentImage = none
      ∧ (loadNextImageRun o s).st.extractedText = ""
      ∧ (loadNextImageRun o s).st.editedText = ""
      ∧ (loadNextImageRun o s).pending = []
      ∧ ∀ w : World, w.st.currentImage = none →
          saveLabel w =
            { w with log := w.log ++ [.toast "Error" "Please enter some text before saving" true] }
          ∧ retryOCR w = w
          ∧ clickSkip w = w
          ∧ clickSave w = w
          ∧ clickRetry w = w
          ∧ (skipImage w).log = w.log ++ [.toast "Skipped" "Skipped undefined" false, .getNext] := by
  refine ⟨?_, ?_, ?_, ?_, ?_⟩
  any_goals
    simp [loadNextImageRun, loadNextImage, World.ofState, completionFuel, drain_cons, drain_nil,
      resume, Oracle.answer, ho, hd, loadNextImage_resume, loadNextImage_finally,
      loadNextImage_return]
  intro w hw
  refine ⟨saveLabel_rejected w (Or.inl hw), ?_, ?_, ?_, ?_, ?_⟩ <;>
    simp [retryOCR, clickSkip, clickSave, clickRetry, skipEnabled, saveEnabled, retryEnabled,
      skipImage, loadNextImage, hw]

theorem exhausted_controls_rejected_witness :
    (loadNextImageRun exhaustedOracle reviewingA).st.currentImage = none
      ∧ retryOCR (World.ofState exhaustedState) = World.ofState exhaustedState
      ∧ clickSkip (World.ofState exhaustedState) = World.ofState exhaustedState :=
  have h := exhausted_controls_rejected exhaustedOracle reviewingA allDone rfl (by decide)
  have hw := h.2.2.2.2 (World.ofState exhaustedState) rfl
  ⟨h.1, hw.2.1, hw.2.2.1⟩

/-- C9, as the spec states it, fails: `loadNextImage()` called while
`isLoadingImage` is true issues an ImageSource request, and two calls in a row
issue two. -/
theorem loadNextImage_while_loading_requests :
    loadingState.isLoadingImage = true
      ∧ (loadNextImage .effect (World.ofState loadingState)).log = [.getNext]
      ∧ (run World.initial [.call .loadNextImage]).st.isLoadingImage = true
      ∧ (run World.initial [.call .loadNextImage, .call .loadNextImage]).log
          = [.getNext, .getNext] := by
  decide

/-- C9, amended: `loadNextImage()` has no guard of its own and always issues
the request; the rejection is done by the controls.  In every world with
`isLoadingImage = true` a click on Skip or on Save does nothing (no request,
state unchanged), so a second click on Skip right after a first one does
nothing, and two rapid clicks on an enabled Skip issue exactly one
ImageSource.next request. -/
theorem clicks_rejected_while_loading (w : World) :
    (w.st.isLoadingImage = true → clickSkip w = w ∧ clickSave w = w)
      ∧ clickSkip (clickSkip w) = clickSkip w
      ∧ (skipEnabled w.st = true →
          ((clickSkip (clickSkip w)).log.drop w.log.length).filter Event.isImageSource
            = [.getNext])
      ∧ ∀ c, (loadNextImage c w).log = w.log ++ [.getNext] := by
  refine ⟨?_, ?_, ?_, ?_⟩
  · intro h
    simp [clickSkip, clickSave, skipEnabled, saveEnabled, h]
  · by_cases h : skipEnabled w.st = true
    · rw [clickSkip_of_enabled w h, clickSkip_after_skipImage]
    · simp [clickSkip, h]
  · intro h
    rw [clickSkip_of_enabled w h, clickSkip_after_skipImage]
    simp [skipImage, loadNextImage, Event.isImageSource]
  · intro c
    simp [loadNextImage]

theorem clicks_rejected_while_loading_witness :
    clickSkip (World.ofState { reviewingA with isLoadingImage := true })
        = World.ofState { reviewingA with isLoadingImage := true }
      ∧ ((clickSkip (clickSkip (World.ofState reviewingA))).log.drop 0).filter
          Event.isImageSource = [.getNext] :=
  ⟨((clicks_rejected_while_loading
      (World.ofState { reviewingA with isLoadingImage := true })).1 rfl).1,
   (clicks_rejected_while_loading (World.ofState reviewingA)).2.2.1 (by decide)⟩

/-! ## Late extraction answers -/

/-- With `isProcessing` set, a click on Skip, Save or Retry and typing in the
textarea do nothing: this is the gate the view puts in front of a pending
extraction. -/
theorem controls_disabled_while_processing (w : World) (h : w.st.isProcessing = true) :
    clickSkip w = w ∧ clickSave w = w ∧ clickRetry w = w ∧ ∀ text, typeText text w = w := by
  refine ⟨?_, ?_, ?_, ?_⟩
  · simp [clickSkip, skipEnabled, h]
  · simp [clickSave, saveEnabled, h]
  · simp [clickRetry, retryEnabled, h]
  · intro text
    simp [typeText, textareaEnabled, h]

/-- The continuation of `performOCR` applies a successful answer to the state
without looking at the current image. -/
theorem performOCR_resume_applies_answer (t : String) (c : OCRCaller) (w : World) :
    (performOCR_resume (some ⟨true, t⟩) c w).st.extractedText = t
      ∧ (performOCR_resume (some ⟨true, t⟩) c w).st.editedText = t
      ∧ (performOCR_resume (some ⟨true, t⟩) c w).st.currentImage = w.st.currentImage := by
  by_cases ht : t = "" <;> rcases c with _ | c' <;>
    simp [performOCR_resume, performOCR_return, ht]

/-- C8 at its failing input, a session driven through the rendered controls
only (`retryDuringSave`).  While the save of `imgA` is in flight the Retry
button is enabled although Skip and Save are disabled.  After the session
`imgB` is the current image with the reviewer's text "Invoice #42", no
extraction is marked as running and every control is enabled, yet the
extraction request for `imgA` is still pending.  Its late answer overwrites
`extractedText` and `editedText` of `imgB`, and a click on Save then stores
the text of `imgA` as the label of `imgB`.  The same overwrite follows a
direct `skipImage()` call during the extraction (`skipDuringExtraction`). -/
theorem late_extraction_answer_overwrites :
    (retryEnabled (uiRun (retryDuringSave.take 4)).st = true
      ∧ (uiRun (retryDuringSave.take 4)).st.isSaving = true
      ∧ skipEnabled (uiRun (retryDuringSave.take 4)).st = false
      ∧ saveEnabled (uiRun (retryDuringSave.take 4)).st = false)
      ∧ (uiRun retryDuringSave).pending = [.awaitProgress, .awaitOCR "img001.png" .retry]
      ∧ (uiRun retryDuringSave).st.currentImage = some imgB
      ∧ (uiRun retryDuringSave).st.extractedText = "Invoice #4Z"
      ∧ (uiRun retryDuringSave).st.editedText = "Invoice #42"
      ∧ (uiRun retryDuringSave).st.error = ""
      ∧ (uiRun retryDuringSave).st.isProcessing = false
      ∧ (uiStep (uiRun retryDuringSave) (.settle 1 lateAnswerForA)).st.currentImage = some imgB
      ∧ (uiStep (uiRun retryDuringSave) (.settle 1 lateAnswerForA)).st.editedText
          = "text of img001"
      ∧ (uiStep (uiRun retryDuringSave) (.settle 1 lateAnswerForA)).st.extractedText
          = "text of img001"
      ∧ (uiStep (uiStep (uiRun retryDuringSave) (.settle 1 lateAnswerForA)) .clickSave).log.filter
            Event.isLabelStore
          = [.postSave "img001.png" "Hello World", .postSave "img002.png" "text of img001"]
      ∧ (run World.initial skipDuringExtraction).pending
          = [.awaitProgress, .awaitOCR "img001.png" (.load .effect)]
      ∧ (run World.initial skipDuringExtraction).st.currentImage = some imgB
      ∧ (run World.initial skipDuringExtraction).st.editedText = "Invoice #42"
      ∧ (step (run World.initial skipDuringExtraction) (.settle 1 lateAnswerForA)).st.currentImage
          = some imgB
      ∧ (step (run World.initial skipDuringExtraction) (.settle 1 lateAnswerForA)).st.editedText
          = "text of img001"
      ∧ (step (run World.initial skipDuringExtraction) (.settle 1 lateAnswerForA)).st.extractedText
          = "text of img001" := by
  decide

/-! ## The progress invariant -/

theorem performOCR_return_progress (c : OCRCaller) (w : World) :
    (performOCR_return c w).st.progress = w.st.progress := by
  cases c <;> simp [performOCR_return]

theorem performOCR_progress (imageName : String) (c : OCRCaller) (w : World) :
    (performOCR imageName c w).st.progress = w.st.progress := by
  by_cases h : imageName = "" <;> simp [performOCR, h, performOCR_return_progress]

theorem performOCR_resume_progress (r : Option OCRData) (c : OCRCaller) (w : World) :
    (performOCR_resume r c w).st.progress = w.st.progress := by
  rcases r with _ | ⟨ok, t⟩
  · simp [performOCR_resume, performOCR_return_progress]
  · cases ok <;> by_cases h : t = "" <;>
      simp [performOCR_resume, performOCR_return_progress, h]

theorem loadNextImage_finally_progress (c : Caller) (w : World) :
    (loadNextImage_finally c w).st.progress = w.st.progress := by
  cases c <;> simp [loadNextImage_finally, loadNextImage_return]

theorem loadNextImage_progress (c : Caller) (w : World) :
    (loadNextImage c w).st.progress = w.st.progress := by
  simp [loadNextImage]

theorem saveLabel_progress (w : World) : (saveLabel w).st.progress = w.st.progress := by
  unfold saveLabel
  split
  · simp
  · split <;> simp

theorem call_progress (c : Call) (w : World) : (call c w).st.progress = w.st.progress := by
  cases c with
  | mount => simp [call, mount, loadProgress, loadNextImage]
  | loadProgress => simp [call, loadProgress]
  | loadNextImage => simp [call, loadNextImage]
  | performOCR imageName => simp [call, performOCR_progress]
  | saveLabel => simp [call, saveLabel_progress]
  | skipImage => simp [call, skipImage, loadNextImage]
  | retryOCR =>
    simp only [call, retryOCR]
    split
    · exact performOCR_progress _ _ _
    · rfl
  | setEditedText text => simp [call]
  | setError msg => simp [call]

theorem resume_progressBounded (t : Task) (r : Response) (w w' : World)
    (h : resume t r w = some w') (hr : r.progressOK = true) (hw : progressBounded w) :
    progressBounded w' := by
  unfold progressBounded at *
  cases t <;> cases r <;> simp only [resume, Option.some.injEq] at h <;> try cases h
  case awaitProgress.progress d =>
    rcases d with _ | d
    · simpa [loadProgress_resume] using hw
    · simpa [loadProgress_resume, Response.progressOK] using hr
  case awaitNext.next c d =>
    rcases d with _ | d
    · simpa [loadNextImage_resume, loadNextImage_finally_progress] using hw
    · by_cases hm : d.message = ""
      · simpa [loadNextImage_resume, hm, performOCR_progress, Response.progressOK] using hr
      · simpa [loadNextImage_resume, hm, loadNextImage_finally_progress] using hw
  case awaitOCR.ocr n c d =>
    simpa [performOCR_resume_progress] using hw
  case awaitSave.save n d =>
    rcases d with _ | d
    · simpa [saveLabel_resume, saveLabel_finally] using hw
    · cases hs : d.success <;>
        simpa [saveLabel_resume, saveLabel_finally, loadNextImage, hs] using hw
  case resumeLoad.tick c =>
    simpa [loadNextImage_finally_progress] using hw
  case resumeSave.tick =>
    simpa [saveLabel_finally] using hw

theorem step_progressBounded (w : World) (a : Action) (ha : a.progressOK = true)
    (hw : progressBounded w) : progressBounded (step w a) := by
  cases a with
  | call c =>
    unfold progressBounded at *
    simpa [step, call_progress] using hw
  | settle i r =>
    simp only [step, settle]
    split
    · next t ht =>
      split
      · next w' hres =>
        exact resume_progressBounded t r _ w' hres ha (by simpa [progressBounded] using hw)
      · exact hw
    · exact hw

theorem run_progressBounded (as : List Action) (w : World)
    (h : ∀ a ∈ as, a.progressOK = true) (hw : progressBounded w) :
    progressBounded (run w as) := by
  induction as generalizing w with
  | nil => simpa [run] using hw
  | cons a as ih =>
    have ha : a.progressOK = true := h a (List.mem_cons_self _ _)
    have hs := step_progressBounded w a ha hw
    simpa [run] using ih (step w a) (fun b hb => h b (List.mem_cons_of_mem _ hb)) hs

/-- C10: `progress.processed <= progress.total` holds in the initial state and
after every sequence and interleaving of calls of the component's functions
and resumptions of its suspended functions, provided every ImageSource
response carries `processed_images <= total_images`. -/
theorem progress_bounded_always (as : List Action) (h : ∀ a ∈ as, a.progressOK = true) :
    (run World.initial as).st.progress.processed ≤ (run World.initial as).st.progress.total :=
  run_progressBounded as World.initial h (by simp [progressBounded, World.initial, State.initial])

theorem progress_bounded_always_witness :
    (run World.initial skipDuringExtraction).st.progress = { processed := 1, total := 2 }
      ∧ (run World.initial skipDuringExtraction).st.progress.processed
          ≤ (run World.initial skipDuringExtraction).st.progress.total :=
  ⟨by decide, progress_bounded_always skipDuringExtraction (by decide)⟩

end OCRLabeler
